import Mathlib

/-!
Verification development for the fermi-fluids-intro repository.

Part 1 embeds the tutorial page code (script.js): the Fermi-Dirac helper,
the curve samplers of the visualization methods, and the canvas-lookup
control flow, as pure functions over the reals.  JavaScript numbers are
modelled as real numbers; JavaScript division is modelled by real division
(with the Lean convention x / 0 = 0).

Part 2 models the 2D incompressible fluid solver that the repository's
documentation (README, spec) describes.  The solver source itself is not
part of the repository snapshot, so those definitions are modelled from
the specification text and carry doc comments saying so.
-/

namespace FermiFluids

/-- Embeds fermiDirac from script.js lines 549-555: if temperature is 0
return the step value (1 when energy is at most mu, else 0), otherwise
return 1 / (exp((energy - mu) / temperature) + 1). -/
noncomputable def fermiDirac (energy mu temperature : ℝ) : ℝ :=
  if temperature = 0 then
    if energy ≤ mu then 1 else 0
  else
    1 / (Real.exp ((energy - mu) / temperature) + 1)

/-- Embeds the occupation value computed in createIntroVisualization
(script.js line 188): n = k <= 1 ? 1 : 0. -/
noncomputable def fermiStepOcc (k : ℝ) : ℝ :=
  if k ≤ 1 then 1 else 0

/-- The sampled momentum in createIntroVisualization (script.js line 187):
k = (i / steps) * 2 with steps = 200. -/
noncomputable def introK (i : ℕ) : ℝ :=
  ((i : ℝ) / 200) * 2

/-- Embeds effectiveMass from updateQuasiparticleViz (script.js line 353):
effectiveMass = 1 + interactionStrength / 3. -/
noncomputable def effectiveMass (interactionStrength : ℝ) : ℝ :=
  1 + interactionStrength / 3

/-- Embeds the quasiparticle dispersion of updateQuasiparticleViz
(script.js line 360): E = 1 + (k - 1) / effectiveMass, with JavaScript
division modelled by real division.  This agrees with the JavaScript
value whenever the effective mass is nonzero; the zero-denominator case,
where JavaScript produces a non-finite value instead of a real number,
is tracked by quasiEnergyJS below. -/
noncomputable def quasiEnergy (interactionStrength k : ℝ) : ℝ :=
  1 + (k - 1) / effectiveMass interactionStrength

/-- JavaScript division of two finite reals: a real result only when the
denominator is nonzero; a zero denominator yields NaN or an infinity in
JavaScript, modelled here as none (no finite real value). -/
noncomputable def jsDiv (a b : ℝ) : Option ℝ :=
  if b = 0 then none else some (a / b)

/-- The quasiparticle dispersion of updateQuasiparticleViz (script.js
line 360) under JavaScript division semantics: the finite real value
1 + (k - 1) / effectiveMass when the effective mass is nonzero, and none
(a non-finite JavaScript value) when it is zero. -/
noncomputable def quasiEnergyJS (interactionStrength k : ℝ) : Option ℝ :=
  (jsDiv (k - 1) (effectiveMass interactionStrength)).map fun q => 1 + q

/-- A canvas element, as far as the embedded code observes it: its pixel
size.  getCanvasContext resizes every canvas it finds to 500 x 400. -/
structure Canvas where
  width : ℕ
  height : ℕ

/-- One 2D-context drawing call issued by script.js.  Pure style
assignments (strokeStyle, fillStyle, lineWidth, font, textAlign,
setLineDash) and the text payload of fillText are not modelled as
operations; only calls that produce or position drawing output are. -/
inductive DrawOp where
  | clearRect (x y w h : ℝ)
  | beginPath
  | moveTo (x y : ℝ)
  | lineTo (x y : ℝ)
  | stroke
  | fill
  | arc (x y radius startAngle endAngle : ℝ)
  | fillText (x y : ℝ)
  | save
  | restore
  | translate (x y : ℝ)
  | rotate (angle : ℝ)

/-- Canvas id used by createIntroVisualization. -/
def introId : String := "intro-viz"

/-- Canvas id used by updateFermiSphereViz. -/
def fermiSphereId : String := "fermi-sphere-viz"

/-- Canvas id used by updateQuasiparticleViz. -/
def quasiparticleId : String := "quasiparticle-viz"

/-- Canvas id used by createInteractionVisualization. -/
def interactionId : String := "interaction-viz"

/-- Canvas id used by createTransportVisualization. -/
def transportId : String := "transport-viz"

/-- Embeds getCanvasContext (script.js lines 68-79): look the id up in the
document; if no element is found return null, otherwise resize the canvas
to 500 x 400 and return it.  The document is modelled as a partial map
from element ids to canvases. -/
def getCanvasContext (doc : String → Option Canvas) (cid : String) :
    Option Canvas :=
  match doc cid with
  | none => none
  | some _ => some { width := 500, height := 400 }

/-- Embeds the shared i = 0 .. steps plotting loop of script.js: moveTo on
the first sample, lineTo on every later one, with the sample point given
by a function of the loop index. -/
noncomputable def polylineOps (steps : ℕ) (pt : ℕ → ℝ × ℝ) : List DrawOp :=
  (List.range (steps + 1)).map fun i =>
    if i = 0 then DrawOp.moveTo (pt i).1 (pt i).2
    else DrawOp.lineTo (pt i).1 (pt i).2

/-- Embeds drawAxes (script.js lines 82-164): the two axis strokes, the
axis-label fillTexts, and the tick / grid-line / tick-label loops.  The
label strings and the xMax / yMax values only affect text payloads, which
are not modelled. -/
noncomputable def drawAxes (width height mTop mRight mBottom mLeft : ℝ) :
    List DrawOp :=
  let plotWidth := width - mLeft - mRight
  let plotHeight := height - mTop - mBottom
  [DrawOp.beginPath, DrawOp.moveTo mLeft (height - mBottom),
   DrawOp.lineTo (width - mRight) (height - mBottom), DrawOp.stroke,
   DrawOp.beginPath, DrawOp.moveTo mLeft mTop,
   DrawOp.lineTo mLeft (height - mBottom), DrawOp.stroke,
   DrawOp.fillText (width / 2) (height - 10),
   DrawOp.save, DrawOp.translate 15 (height / 2),
   DrawOp.rotate (-(Real.pi / 2)), DrawOp.fillText 0 0, DrawOp.restore] ++
  ((List.range 6).map fun i =>
    let x := mLeft + ((i : ℝ) / 5) * plotWidth
    [DrawOp.beginPath, DrawOp.moveTo x (height - mBottom),
     DrawOp.lineTo x (height - mBottom + 5), DrawOp.stroke] ++
    (if 0 < i ∧ i < 5 then
      [DrawOp.beginPath, DrawOp.moveTo x mTop,
       DrawOp.lineTo x (height - mBottom), DrawOp.stroke]
     else []) ++
    [DrawOp.fillText x (height - mBottom + 20)]).flatten ++
  ((List.range 6).map fun i =>
    let y := height - mBottom - ((i : ℝ) / 5) * plotHeight
    [DrawOp.beginPath, DrawOp.moveTo (mLeft - 5) y,
     DrawOp.lineTo mLeft y, DrawOp.stroke] ++
    (if 0 < i ∧ i < 5 then
      [DrawOp.beginPath, DrawOp.moveTo mLeft y,
       DrawOp.lineTo (width - mRight) y, DrawOp.stroke]
     else []) ++
    [DrawOp.fillText (mLeft - 10) (y + 4)]).flatten

/-- Embeds createIntroVisualization (script.js lines 166-224).  If the
intro canvas is missing the method returns immediately and issues no
drawing operation; otherwise it clears the canvas, draws axes, plots the
Fermi step function over 200 intervals, draws the dashed Fermi-surface
line, and places three labels. -/
noncomputable def createIntroVisualization (doc : String → Option Canvas) :
    List DrawOp :=
  match getCanvasContext doc introId with
  | none => []
  | some c =>
    let width := (c.width : ℝ)
    let height := (c.height : ℝ)
    let plotWidth := width - 60 - 20
    let plotHeight := height - 20 - 60
    let kFx := 60 + (1 / 2) * plotWidth
    [DrawOp.clearRect 0 0 width height] ++
    drawAxes width height 20 20 60 60 ++
    [DrawOp.beginPath] ++
    polylineOps 200 (fun i =>
      let k := introK i
      let n := fermiStepOcc k
      (60 + (k / 2) * plotWidth, height - 60 - n * plotHeight)) ++
    [DrawOp.stroke,
     DrawOp.beginPath, DrawOp.moveTo kFx 20,
     DrawOp.lineTo kFx (height - 60), DrawOp.stroke,
     DrawOp.fillText (60 + plotWidth * 0.25) (height / 2),
     DrawOp.fillText (60 + plotWidth * 0.75) (height / 2),
     DrawOp.fillText (kFx + 20) (20 + 30)]

/-- Embeds updateFermiSphereViz (script.js lines 230-288).  If the canvas
is missing the method issues no drawing operation; otherwise it clears the
canvas, draws axes, plots fermiDirac(E, 1, temperature) over 300
intervals, draws the Fermi-energy line, a label, and (only when the
temperature is positive) the temperature annotation. -/
noncomputable def updateFermiSphereViz (doc : String → Option Canvas)
    (temperature : ℝ) : List DrawOp :=
  match getCanvasContext doc fermiSphereId with
  | none => []
  | some c =>
    let width := (c.width : ℝ)
    let height := (c.height : ℝ)
    let plotWidth := width - 60 - 20
    let plotHeight := height - 20 - 60
    let EFx := 60 + (1 / 3) * plotWidth
    [DrawOp.clearRect 0 0 width height] ++
    drawAxes width height 20 20 60 60 ++
    [DrawOp.beginPath] ++
    polylineOps 300 (fun i =>
      let E := ((i : ℝ) / 300) * 3
      let f := fermiDirac E 1 temperature
      (60 + (E / 3) * plotWidth, height - 60 - (f / 1.2) * plotHeight)) ++
    [DrawOp.stroke,
     DrawOp.beginPath, DrawOp.moveTo EFx 20,
     DrawOp.lineTo EFx (height - 60), DrawOp.stroke,
     DrawOp.fillText (EFx + 5) (20 + 20)] ++
    (if 0 < temperature then
      [DrawOp.fillText (60 + plotWidth * 0.7) (20 + 40)]
     else [])

/-- Embeds updateQuasiparticleViz (script.js lines 294-420).  If the
canvas is missing the method issues no drawing operation; otherwise it
clears the canvas, draws the two axes, plots the free-particle dispersion
E = k * k and the quasiparticle dispersion quasiEnergy over 100 intervals
on the window [0.5, 1.5] x [0.5, 1.5], draws the Fermi-surface cross
lines, and places the labels. -/
noncomputable def updateQuasiparticleViz (doc : String → Option Canvas)
    (interactionStrength : ℝ) : List DrawOp :=
  match getCanvasContext doc quasiparticleId with
  | none => []
  | some c =>
    let width := (c.width : ℝ)
    let height := (c.height : ℝ)
    let plotWidth := width - 60 - 20
    let plotHeight := height - 20 - 60
    let kMin : ℝ := 0.5
    let kMax : ℝ := 1.5
    let EMin : ℝ := 0.5
    let EMax : ℝ := 1.5
    let kFx := 60 + ((1 - kMin) / (kMax - kMin)) * plotWidth
    let EFy := height - 60 - ((1 - EMin) / (EMax - EMin)) * plotHeight
    [DrawOp.clearRect 0 0 width height,
     DrawOp.beginPath, DrawOp.moveTo 60 (height - 60),
     DrawOp.lineTo (width - 20) (height - 60), DrawOp.stroke,
     DrawOp.beginPath, DrawOp.moveTo 60 20,
     DrawOp.lineTo 60 (height - 60), DrawOp.stroke,
     DrawOp.beginPath] ++
    polylineOps 100 (fun i =>
      let k := kMin + ((i : ℝ) / 100) * (kMax - kMin)
      let E := k * k
      (60 + ((k - kMin) / (kMax - kMin)) * plotWidth,
       height - 60 - ((E - EMin) / (EMax - EMin)) * plotHeight)) ++
    [DrawOp.stroke, DrawOp.beginPath] ++
    polylineOps 100 (fun i =>
      let k := kMin + ((i : ℝ) / 100) * (kMax - kMin)
      let E := quasiEnergy interactionStrength k
      (60 + ((k - kMin) / (kMax - kMin)) * plotWidth,
       height - 60 - ((E - EMin) / (EMax - EMin)) * plotHeight)) ++
    [DrawOp.stroke,
     DrawOp.beginPath, DrawOp.moveTo kFx 20,
     DrawOp.lineTo kFx (height - 60), DrawOp.stroke,
     DrawOp.beginPath, DrawOp.moveTo 60 EFy,
     DrawOp.lineTo (width - 20) EFy, DrawOp.stroke,
     DrawOp.fillText (60 + plotWidth * 0.6) (20 + 30),
     DrawOp.fillText (60 + plotWidth * 0.6) (20 + 50),
     DrawOp.fillText (kFx + 20) (EFy - 10),
     DrawOp.fillText (60 + 20) (height - 60 - 20),
     DrawOp.fillText (width / 2) (height - 10),
     DrawOp.save, DrawOp.translate 15 (height / 2),
     DrawOp.rotate (-(Real.pi / 2)), DrawOp.fillText 0 0, DrawOp.restore]

/-- Embeds createInteractionVisualization (script.js lines 422-482).  If
the canvas is missing the method issues no drawing operation; otherwise it
clears the canvas, draws the filled Fermi circle, draws the sixteen
interaction arrows with their arrowheads, and places two labels. -/
noncomputable def createInteractionVisualization
    (doc : String → Option Canvas) : List DrawOp :=
  match getCanvasContext doc interactionId with
  | none => []
  | some c =>
    let width := (c.width : ℝ)
    let height := (c.height : ℝ)
    let centerX := width / 2
    let centerY := height / 2
    let radius : ℝ := 120
    [DrawOp.clearRect 0 0 width height,
     DrawOp.beginPath, DrawOp.arc centerX centerY radius 0 (2 * Real.pi),
     DrawOp.fill, DrawOp.stroke] ++
    ((List.range 16).map fun k =>
      let angle := (k : ℝ) * (Real.pi / 8)
      let x1 := centerX + radius * Real.cos angle
      let y1 := centerY + radius * Real.sin angle
      let x2 := centerX + (radius + 30) * Real.cos angle
      let y2 := centerY + (radius + 30) * Real.sin angle
      let headLength : ℝ := 8
      let headAngle := Real.pi / 6
      [DrawOp.beginPath, DrawOp.moveTo x1 y1, DrawOp.lineTo x2 y2,
       DrawOp.stroke, DrawOp.beginPath, DrawOp.moveTo x2 y2,
       DrawOp.lineTo (x2 - headLength * Real.cos (angle - headAngle))
         (y2 - headLength * Real.sin (angle - headAngle)),
       DrawOp.moveTo x2 y2,
       DrawOp.lineTo (x2 - headLength * Real.cos (angle + headAngle))
         (y2 - headLength * Real.sin (angle + headAngle)),
       DrawOp.stroke]).flatten ++
    [DrawOp.fillText centerX 40, DrawOp.fillText centerX (height - 20)]

/-- Embeds createTransportVisualization (script.js lines 484-547).  If the
canvas is missing the method issues no drawing operation; otherwise it
clears the canvas, draws axes, plots the resistivity curve 0.1 + T * T and
the specific-heat curve T over 100 intervals, and places the legend. -/
noncomputable def createTransportVisualization
    (doc : String → Option Canvas) : List DrawOp :=
  match getCanvasContext doc transportId with
  | none => []
  | some c =>
    let width := (c.width : ℝ)
    let height := (c.height : ℝ)
    let plotWidth := width - 60 - 20
    let plotHeight := height - 20 - 60
    [DrawOp.clearRect 0 0 width height] ++
    drawAxes width height 20 20 60 60 ++
    [DrawOp.beginPath] ++
    polylineOps 100 (fun i =>
      let T := ((i : ℝ) / 100) * 1
      let rho := 0.1 + T * T
      (60 + T * plotWidth, height - 60 - rho * plotHeight)) ++
    [DrawOp.stroke, DrawOp.beginPath] ++
    polylineOps 100 (fun i =>
      let T := ((i : ℝ) / 100) * 1
      let cv := T
      (60 + T * plotWidth, height - 60 - cv * plotHeight)) ++
    [DrawOp.stroke,
     DrawOp.fillText (60 + plotWidth * 0.6) (20 + 40),
     DrawOp.fillText (60 + plotWidth * 0.6) (20 + 60)]

/-!
Part 2: the fluid solver.  The repository snapshot ships only the tutorial
page; the solver (fluid_core / fluid_langrangians) is described by the
README, the repository instructions and the specification, so every
definition below is modelled from the specification text.  Grids are
total functions from row and column index to a field value; grid size N
means the cells with both indices below N.  Field values are taken in an
arbitrary linear ordered field so that the projection pipeline can be
evaluated exactly over the rationals; the full driver instantiates at the
reals.  Where the specification leaves a discretization constant open
(section 9 of the spec), a standard choice is made and recorded in the
doc comment.
-/

/-- A dense 2D field: row index, then column index. -/
abbrev Grid (α : Type) := ℕ → ℕ → α

section Solver

variable {α : Type} [LinearOrderedField α]

/-- Clamp a value into the interval from lo to hi. -/
def clampVal (lo hi x : α) : α := max lo (min hi x)

/-- Clamp a natural index into the range from lo to hi. -/
def clampNat (lo hi x : ℕ) : ℕ := max lo (min hi x)

/-- Modelled from the spec: enforce_no_through for the x-velocity
component (spec section 4.1): the component normal to the left and right
domain edges, that is u on the first and last column, is set to zero;
all other cells are untouched. -/
def enforceNoThroughU (N : ℕ) (u : Grid α) : Grid α := fun i j =>
  if j = 0 ∨ j = N - 1 then 0 else u i j

/-- Modelled from the spec: enforce_no_through for the y-velocity
component (spec section 4.1): v on the first and last row is set to
zero; all other cells are untouched. -/
def enforceNoThroughV (N : ℕ) (v : Grid α) : Grid α := fun i j =>
  if i = 0 ∨ i = N - 1 then 0 else v i j

/-- Modelled from the spec: divergence of the velocity field (spec
section 4.3 step 1): central differences of u and v at each interior
cell, with cell size h = 1 / N so that dividing by 2h is multiplying by
N / 2; boundary cells are excluded (divergence zero there). -/
def divergence (N : ℕ) (u v : Grid α) : Grid α := fun i j =>
  if 0 < i ∧ i < N - 1 ∧ 0 < j ∧ j < N - 1 then
    ((u i (j + 1) - u i (j - 1)) + (v (i + 1) j - v (i - 1) j)) * (N : α) / 2
  else 0

/-- Sum of the squares of a grid over all cells with both indices below
N. -/
def gridSumSq (N : ℕ) (g : Grid α) : α :=
  ((List.range N).map fun i =>
    ((List.range N).map fun j => g i j * g i j).sum).sum

/-- The squared L2 norm of the divergence of a velocity field.  Strict
decrease (or equality) of the L2 norm is equivalent to strict decrease
(or equality) of this squared norm, since both are square roots of
nonnegative sums. -/
def divL2sq (N : ℕ) (u v : Grid α) : α := gridSumSq N (divergence N u v)

/-- Modelled from the spec: the Neumann boundary fill of the pressure
grid (spec section 4.3 step 2): each boundary cell is set to the value of
its nearest interior neighbor, interior cells are unchanged. -/
def neumannFill (N : ℕ) (p : Grid α) : Grid α := fun i j =>
  p (clampNat 1 (N - 2) i) (clampNat 1 (N - 2) j)

/-- Modelled from the spec: one Jacobi sweep for the discrete Poisson
equation nabla-squared p = d (spec section 4.3 step 2): each interior
cell is replaced by the average of its four neighbors in the previous
grid minus h * h * d / 4, with h = 1 / N; the sweep reads only the
previous grid (double buffering).  Boundary cells are left to the
Neumann fill. -/
def jacobiSweep (N : ℕ) (d p : Grid α) : Grid α := fun i j =>
  if 0 < i ∧ i < N - 1 ∧ 0 < j ∧ j < N - 1 then
    (p (i - 1) j + p (i + 1) j + p i (j - 1) + p i (j + 1) -
      d i j / ((N : α) * (N : α))) / 4
  else p i j

/-- Modelled from the spec: the fixed-iteration Jacobi pressure solve
(spec section 4.3 step 2): starting from the zero grid, the boundary is
filled with the nearest interior value before each sweep, a configured
number of sweeps is run, and the boundary is filled once more so that the
gradient step sees Neumann boundary values. -/
def jacobiPressure (N : ℕ) (d : Grid α) (iters : ℕ) : Grid α :=
  neumannFill N
    ((fun p => jacobiSweep N d (neumannFill N p))^[iters] fun _ _ => 0)

/-- Modelled from the spec: subtraction of the pressure gradient from the
x-velocity (spec section 4.3 step 3): u minus the central difference of p
in the x direction over 2h, applied at columns with two horizontal
neighbors.  The spec leaves the exact scaling constant open (section 9);
the standard 1 / (2h) = N / 2 central-difference scaling is chosen. -/
def subtractGradU (N : ℕ) (p u : Grid α) : Grid α := fun i j =>
  if 0 < j ∧ j < N - 1 then
    u i j - (p i (j + 1) - p i (j - 1)) * (N : α) / 2
  else u i j

/-- Modelled from the spec: subtraction of the pressure gradient from the
y-velocity (spec section 4.3 step 3), as in subtractGradU. -/
def subtractGradV (N : ℕ) (p v : Grid α) : Grid α := fun i j =>
  if 0 < i ∧ i < N - 1 then
    v i j - (p (i + 1) j - p (i - 1) j) * (N : α) / 2
  else v i j

/-- Modelled from the spec: the pressure projection pass (spec section
4.3): compute the divergence, run the configured number of Jacobi
iterations, subtract the pressure gradient from both velocity
components, and re-apply the no-through boundary rule. -/
def project (N iters : ℕ) (u v : Grid α) : Grid α × Grid α :=
  let d := divergence N u v
  let p := jacobiPressure N d iters
  (enforceNoThroughU N (subtractGradU N p u),
   enforceNoThroughV N (subtractGradV N p v))

/-- Modelled from the spec: the splat falloff weight (spec section 4.5):
full strength at the center, smoothly decaying to zero at the radius
boundary.  The exact kernel is left open by the spec (section 9); the
symmetric radial kernel (1 - d2 / r^2)^2 on the open disk of squared
radius r^2, and zero outside it, is chosen.  A radius-zero splat has an
empty disk, so its weight is zero everywhere. -/
def splatWeight (r d2 : α) : α :=
  if d2 < r * r then (1 - d2 / (r * r)) * (1 - d2 / (r * r)) else 0

/-- Modelled from the spec: the per-cell splat weight (spec sections 4.5
and 6): the falloff kernel evaluated at the squared distance from the
cell center ((j + 1/2) / N, (i + 1/2) / N) to the splat center.  Cells
outside the grid get weight zero, so a splat is silently clipped to the
grid. -/
def splatCellWeight (N : ℕ) (x y r : α) : Grid α := fun i j =>
  if i < N ∧ j < N then
    let cx := ((j : α) + 1 / 2) / (N : α)
    let cy := ((i : α) + 1 / 2) / (N : α)
    splatWeight r ((cx - x) * (cx - x) + (cy - y) * (cy - y))
  else 0

/-- Modelled from the spec: the Injector operation add_splat proper (spec
sections 4.5 and 6): add the weighted contributions to the dye and both
velocity components. -/
def add_splat (N : ℕ) (u v dye : Grid α) (x y amount fx fy r : α) :
    Grid α × Grid α × Grid α :=
  (fun i j => u i j + splatCellWeight N x y r i j * fx,
   fun i j => v i j + splatCellWeight N x y r i j * fy,
   fun i j => dye i j + splatCellWeight N x y r i j * amount)

end Solver

section SolverReal

variable {α : Type} [LinearOrderedField α] [FloorRing α]

/-- Modelled from the spec: bilinear sampling with boundary clamping
(spec section 4.1): convert the position in the unit square to grid
coordinates with cell centers at (index + 1/2) * h, clamp into the valid
grid extent, and bilinearly interpolate the four surrounding cells. -/
def bilinearSample (N : ℕ) (f : Grid α) (x y : α) : α :=
  let gx := clampVal 0 ((N : α) - 1) (x * (N : α) - 1 / 2)
  let gy := clampVal 0 ((N : α) - 1) (y * (N : α) - 1 / 2)
  let j0 := (Int.floor gx).toNat
  let i0 := (Int.floor gy).toNat
  let j1 := min (j0 + 1) (N - 1)
  let i1 := min (i0 + 1) (N - 1)
  let tx := gx - (j0 : α)
  let ty := gy - (i0 : α)
  (1 - ty) * ((1 - tx) * f i0 j0 + tx * f i0 j1) +
    ty * ((1 - tx) * f i1 j0 + tx * f i1 j1)

/-- Modelled from the spec: semi-Lagrangian advection of one field (spec
section 4.2): for every grid cell center, trace backward along the given
velocity, clamp the source position into the domain, and bilinearly
sample the transported field there; the output is a fresh grid (double
buffering). -/
def advect (N : ℕ) (dt : α) (u v f : Grid α) : Grid α := fun i j =>
  if i < N ∧ j < N then
    let x := ((j : α) + 1 / 2) / (N : α) - dt * u i j
    let y := ((i : α) + 1 / 2) / (N : α) - dt * v i j
    bilinearSample N f (clampVal 0 1 x) (clampVal 0 1 y)
  else f i j

end SolverReal

/-- Modelled from the spec: elementwise exponential dissipation (spec
section 4.5): the field is multiplied by exp(-rate * dt). -/
noncomputable def dissipate (rate dt : ℝ) (g : Grid ℝ) : Grid ℝ :=
  fun i j => Real.exp (-(rate * dt)) * g i j

/-- Modelled from the spec: the scalar curl (vorticity) of the velocity
field (spec section 4.4): central differences of v with respect to x and
u with respect to y at interior cells, zero at the boundary. -/
noncomputable def curl (N : ℕ) (u v : Grid ℝ) : Grid ℝ := fun i j =>
  if 0 < i ∧ i < N - 1 ∧ 0 < j ∧ j < N - 1 then
    ((v i (j + 1) - v i (j - 1)) - (u (i + 1) j - u (i - 1) j)) *
      (N : ℝ) / 2
  else 0

/-- Modelled from the spec: vorticity confinement (spec section 4.4):
compute the vorticity, the normalized gradient of its magnitude (with a
small epsilon guard, here 1 / 100000, against near-zero gradient
magnitude), build the force perpendicular to that gradient scaled by the
local vorticity and the confinement strength, and add force times dt to
the velocity field. -/
noncomputable def vorticityConfinement (N : ℕ) (strength dt : ℝ)
    (u v : Grid ℝ) : Grid ℝ × Grid ℝ :=
  let w := curl N u v
  let absw : Grid ℝ := fun i j => |w i j|
  let force : ℕ → ℕ → ℝ × ℝ := fun i j =>
    if 0 < i ∧ i < N - 1 ∧ 0 < j ∧ j < N - 1 then
      let gx := (absw i (j + 1) - absw i (j - 1)) * (N : ℝ) / 2
      let gy := (absw (i + 1) j - absw (i - 1) j) * (N : ℝ) / 2
      let mag := Real.sqrt (gx * gx + gy * gy) + 1 / 100000
      (strength * (gy / mag) * w i j, -(strength * (gx / mag) * w i j))
    else (0, 0)
  (fun i j => u i j + dt * (force i j).1,
   fun i j => v i j + dt * (force i j).2)

/-- Modelled from the spec: the immutable simulation parameters (spec
sections 3 and 6). -/
structure SimParams where
  N : ℕ
  dt : ℝ
  velDiss : ℝ
  dyeDiss : ℝ
  vortStrength : ℝ
  iters : ℕ

/-- Modelled from the spec: one queued splat request (spec section 6). -/
structure Splat where
  x : ℝ
  y : ℝ
  amount : ℝ
  fx : ℝ
  fy : ℝ
  r : ℝ

/-- Modelled from the spec: the driver-owned simulation state (spec
sections 3 and 4.6): the dye and velocity fields, the queue of pending
splats, and the step counter of SimStats. -/
structure SimState where
  u : Grid ℝ
  v : Grid ℝ
  dye : Grid ℝ
  pending : List Splat
  stepCount : ℕ

/-- Modelled from the spec: apply the queued splats in order, each
accumulating additively on the previous fields (spec section 4.5). -/
noncomputable def applySplats (N : ℕ) (t : Grid ℝ × Grid ℝ × Grid ℝ)
    (l : List Splat) : Grid ℝ × Grid ℝ × Grid ℝ :=
  l.foldl
    (fun t sp => add_splat N t.1 t.2.1 t.2.2 sp.x sp.y sp.amount sp.fx
      sp.fy sp.r) t

/-- Modelled from the spec: the driver operation add_splat (spec section
4.6): the request is queued and applied at the next step boundary. -/
def queueSplat (s : SimState) (sp : Splat) : SimState :=
  { s with pending := s.pending ++ [sp] }

/-- Modelled from the spec: one driver step (spec section 4.6): advect
velocity by the pre-advection velocity, apply vorticity confinement,
dissipate velocity, apply the queued splats, project, advect dye through
the projected velocity, dissipate dye, and increment the step counter by
one. -/
noncomputable def step (P : SimParams) (s : SimState) : SimState :=
  let u1 := advect P.N P.dt s.u s.v s.u
  let v1 := advect P.N P.dt s.u s.v s.v
  let uv2 := vorticityConfinement P.N P.vortStrength P.dt u1 v1
  let u3 := dissipate P.velDiss P.dt uv2.1
  let v3 := dissipate P.velDiss P.dt uv2.2
  let t4 := applySplats P.N (u3, v3, s.dye) s.pending
  let uv5 := project P.N P.iters t4.1 t4.2.1
  let dye5 := advect P.N P.dt uv5.1 uv5.2 t4.2.2
  let dye6 := dissipate P.dyeDiss P.dt dye5
  { u := uv5.1, v := uv5.2, dye := dye6, pending := [],
    stepCount := s.stepCount + 1 }

/-- Modelled from the spec: a linear congruential generator standing in
for the pseudo-random seeding, whose exact scheme the spec leaves
unspecified. -/
def lcg (s : ℕ) : ℕ := (1664525 * s + 1013904223) % 4294967296

/-- A pseudo-random value in the unit interval derived from the seed. -/
noncomputable def randUnit (s : ℕ) : ℝ := ((lcg s % 1000 : ℕ) : ℝ) / 1000

/-- Modelled from the spec: the seeded initial splat used by construction
and reset (spec section 4.6); the spec only requires some deterministic
pseudo-random seeding. -/
noncomputable def seededSplat (seed : ℕ) : Splat :=
  { x := randUnit seed, y := randUnit (lcg seed), amount := 1,
    fx := randUnit (lcg (lcg seed)) - 1 / 2,
    fy := randUnit (lcg (lcg (lcg seed))) - 1 / 2, r := 1 / 10 }

/-- Modelled from the spec: construction of the simulation state (spec
sections 3 and 4.6): zero fields plus the pseudo-random seeding splat, an
empty splat queue, and a step counter of zero. -/
noncomputable def initState (P : SimParams) (seed : ℕ) : SimState :=
  let sp := seededSplat seed
  let t := add_splat P.N (fun _ _ => 0) (fun _ _ => 0) (fun _ _ => 0)
    sp.x sp.y sp.amount sp.fx sp.fy sp.r
  { u := t.1, v := t.2.1, dye := t.2.2, pending := [], stepCount := 0 }

/-- Modelled from the spec: reset (spec section 4.6): reinitialize the
fields from a fresh seed, reset the step counter to zero, and keep the
parameters (which live outside the state) unchanged. -/
noncomputable def reset (P : SimParams) (_s : SimState) (seed : ℕ) :
    SimState :=
  initState P seed

/-!
Concrete fields used by the computational theorems below.  They live over
the rationals so that the projection pipeline evaluates exactly.
-/

/-- A pure-expansion velocity x-component on a 4 x 4 grid: the interior
columns carry -1 on the left and +1 on the right, so the central
difference divergence is the constant 2 on the whole interior.  The field
satisfies the no-through condition (u vanishes on the boundary
columns). -/
def divExpandU : Grid ℚ := fun i j =>
  if i = 1 ∧ j = 1 then -1 else if i = 1 ∧ j = 2 then 1
  else if i = 2 ∧ j = 1 then -1 else if i = 2 ∧ j = 2 then 1 else 0

/-- The zero y-velocity component. -/
def zeroV : Grid ℚ := fun _ _ => 0

/-- A single-bump velocity x-component on a 4 x 4 grid: u is 1 at cell
(1, 1) and 0 elsewhere, giving a non-constant interior divergence. -/
def bumpU : Grid ℚ := fun i j => if i = 1 ∧ j = 1 then 1 else 0

/-- A sample x-velocity grid for the splat no-op witness. -/
def wGridU : Grid ℚ := fun i j => (i : ℚ) + 2 * (j : ℚ)

/-- A sample y-velocity grid for the splat no-op witness. -/
def wGridV : Grid ℚ := fun i j => (i : ℚ) - (j : ℚ)

/-- A sample dye grid for the splat no-op witness. -/
def wGridD : Grid ℚ := fun i j => (i : ℚ) * (j : ℚ) + 1

/-!
Theorems.
-/

/-- Claim C2: for every energy E, chemical potential mu and temperature T,
fermiDirac returns the zero-temperature step value (1 if E is at most mu,
else 0) when T = 0, and 1 / (exp((E - mu) / T) + 1) otherwise; the page's
Fermi-Dirac curve is the closed-form analytic formula. -/
theorem fermiDirac_closed_form (E mu T : ℝ) :
    (T = 0 → fermiDirac E mu T = if E ≤ mu then 1 else 0) ∧
    (T ≠ 0 → fermiDirac E mu T = 1 / (Real.exp ((E - mu) / T) + 1)) := by
  constructor
  · intro h
    simp [fermiDirac, h]
  · intro h
    simp [fermiDirac, h]

/-- Witness for fermiDirac_closed_form at E = 0, mu = 0, T = 0. -/
theorem fermiDirac_closed_form_witness : fermiDirac 0 0 0 = 1 := by
  have h := (fermiDirac_closed_form 0 0 0).1 rfl
  simpa using h

/-- Claim C8: fermiDirac is a pure function of its three arguments: any
two calls with equal arguments return equal values. -/
theorem fermiDirac_deterministic (E mu T E₂ mu₂ T₂ : ℝ) (hE : E = E₂)
    (hmu : mu = mu₂) (hT : T = T₂) :
    fermiDirac E mu T = fermiDirac E₂ mu₂ T₂ := by
  rw [hE, hmu, hT]

/-- Witness for fermiDirac_deterministic at the input (1, 2, 3). -/
theorem fermiDirac_deterministic_witness :
    fermiDirac 1 2 3 = fermiDirac 1 2 3 :=
  fermiDirac_deterministic 1 2 3 1 2 3 rfl rfl rfl

/-- Claim C10: for every energy, chemical potential and temperature at
least 0, fermiDirac returns a value in the closed unit interval, and at
temperature 0 the value is exactly 0 or exactly 1. -/
theorem fermiDirac_occupation (E mu T : ℝ) (hT : 0 ≤ T) :
    (0 ≤ fermiDirac E mu T ∧ fermiDirac E mu T ≤ 1) ∧
    (T = 0 → fermiDirac E mu T = 0 ∨ fermiDirac E mu T = 1) := by
  by_cases h0 : T = 0
  · refine ⟨?_, fun _ => ?_⟩ <;> simp only [fermiDirac, if_pos h0] <;>
      split <;> norm_num
  · have hexp : 0 < Real.exp ((E - mu) / T) := Real.exp_pos _
    have hden : (0 : ℝ) < Real.exp ((E - mu) / T) + 1 := by linarith
    refine ⟨⟨?_, ?_⟩, fun h => absurd h h0⟩
    · simp only [fermiDirac, if_neg h0]
      positivity
    · simp only [fermiDirac, if_neg h0]
      rw [div_le_one hden]
      linarith

/-- Witness for fermiDirac_occupation at E = 2, mu = 1, T = 1. -/
theorem fermiDirac_occupation_witness :
    (0 : ℝ) ≤ 1 ∧ (0 ≤ fermiDirac 2 1 1 ∧ fermiDirac 2 1 1 ≤ 1) :=
  ⟨by norm_num, (fermiDirac_occupation 2 1 1 (by norm_num)).1⟩

/-- Claim C6: createIntroVisualization plots the momentum occupation as an
exact step function: every sampled momentum k = (i / 200) * 2 lies in
[0, 2], and the plotted occupation is 1 when k is at most 1 and 0 when k
exceeds 1. -/
theorem introViz_step_function (i : ℕ) (hi : i ≤ 200) :
    (0 ≤ introK i ∧ introK i ≤ 2) ∧
    (introK i ≤ 1 → fermiStepOcc (introK i) = 1) ∧
    (1 < introK i → fermiStepOcc (introK i) = 0) := by
  refine ⟨⟨?_, ?_⟩, fun h => ?_, fun h => ?_⟩
  · unfold introK
    positivity
  · unfold introK
    have : (i : ℝ) ≤ 200 := by exact_mod_cast hi
    nlinarith
  · simp [fermiStepOcc, if_pos h]
  · simp [fermiStepOcc, if_neg (not_le.2 h)]

/-- Witness for introViz_step_function at sample index 150, where the
sampled momentum is 1.5 and the plotted occupation is 0. -/
theorem introViz_step_function_witness :
    150 ≤ 200 ∧ fermiStepOcc (introK 150) = 0 :=
  ⟨by norm_num,
   (introViz_step_function 150 (by norm_num)).2.2 (by norm_num [introK])⟩

/-- Claim C7 counterexample: at interaction strength F = -3 the source
computes an effective mass of 1 + (-3) / 3 = 0, and the sampled energy at
k = 1 is 1 + 0 / 0, which under JavaScript division is NaN rather than
any real number; in particular it is not 1, so the plotted curve does not
pass through the Fermi point (1, 1) for every F. -/
theorem quasiparticle_fermi_point_counterexample :
    effectiveMass (-3) = 0 ∧ quasiEnergyJS (-3) 1 = none ∧
    quasiEnergyJS (-3) 1 ≠ some 1 := by
  have hm : effectiveMass (-3) = 0 := by
    norm_num [effectiveMass]
  have hn : quasiEnergyJS (-3) 1 = none := by
    simp [quasiEnergyJS, jsDiv, hm]
  refine ⟨hm, hn, ?_⟩
  rw [hn]
  exact fun hcontra => Option.noConfusion hcontra

/-- Claim C7 amended: the quasiparticle dispersion plotted by
updateQuasiparticleViz is E(k) = 1 + (k - 1) / (1 + F / 3) with effective
mass 1 + F / 3, and for every interaction strength F whose effective mass
is nonzero (that is, every F other than -3) the JavaScript computation
yields exactly this finite value and the energy at k = 1 is exactly 1, so
the curve passes through the Fermi point (1, 1). -/
theorem quasiparticle_fermi_point (F : ℝ)
    (hF : effectiveMass F ≠ 0) :
    (∀ k : ℝ, quasiEnergyJS F k = some (quasiEnergy F k) ∧
      quasiEnergy F k = 1 + (k - 1) / (1 + F / 3)) ∧
    quasiEnergy F 1 = 1 ∧ quasiEnergyJS F 1 = some 1 := by
  have hval : ∀ k : ℝ, quasiEnergyJS F k = some (quasiEnergy F k) := by
    intro k
    simp [quasiEnergyJS, jsDiv, quasiEnergy, hF]
  have h1 : quasiEnergy F 1 = 1 := by
    simp [quasiEnergy]
  refine ⟨fun k => ⟨hval k, rfl⟩, h1, ?_⟩
  rw [hval 1, h1]

/-- Witness for quasiparticle_fermi_point at F = 0, where the effective
mass is 1 and the plotted energy at k = 1 is 1. -/
theorem quasiparticle_fermi_point_witness :
    effectiveMass 0 ≠ 0 ∧ quasiEnergy 0 1 = 1 :=
  ⟨by norm_num [effectiveMass],
   (quasiparticle_fermi_point 0 (by norm_num [effectiveMass])).2.1⟩

/-- Claim C3 (spec-modelled): after every driver step, the velocity
component normal to each of the four domain boundary edges is exactly
zero: u vanishes on the first and last column and v on the first and
last row. -/
theorem step_noThrough (P : SimParams) (s : SimState) (i : ℕ) :
    (step P s).u i 0 = 0 ∧ (step P s).u i (P.N - 1) = 0 ∧
    (step P s).v 0 i = 0 ∧ (step P s).v (P.N - 1) i = 0 := by
  refine ⟨?_, ?_, ?_, ?_⟩ <;>
    simp [step, project, enforceNoThroughU, enforceNoThroughV]

/-- Claim C4 (spec-modelled): the step counter is 0 immediately after
construction and immediately after reset, and every step call increments
it by exactly 1. -/
theorem stepCounter_spec (P : SimParams) (seed : ℕ) (s : SimState) :
    (initState P seed).stepCount = 0 ∧
    (reset P s seed).stepCount = 0 ∧
    (step P s).stepCount = s.stepCount + 1 :=
  ⟨rfl, rfl, rfl⟩

/-- Claim C1 counterexample (spec-modelled): a concrete well-posed
velocity field on a 4 x 4 grid with nonzero divergence (the squared L2
divergence norm is 16) for which a projection pass with one Jacobi
iteration does not strictly reduce the divergence: its pressure iterates
are spatially constant, so the gradient subtraction leaves the velocity
field, and with it the divergence norm, exactly unchanged. -/
theorem projection_not_strictly_reducing :
    divL2sq 4 divExpandU zeroV ≠ 0 ∧
    ¬ divL2sq 4 (project 4 1 divExpandU zeroV).1
        (project 4 1 divExpandU zeroV).2 < divL2sq 4 divExpandU zeroV := by
  have h1 : divL2sq 4 divExpandU zeroV = 16 := by
    simp [divL2sq, gridSumSq, List.range_succ, divergence, divExpandU,
      zeroV]
    norm_num
  have h2 : divL2sq 4 (project 4 1 divExpandU zeroV).1
      (project 4 1 divExpandU zeroV).2 = 16 := by
    simp [divL2sq, gridSumSq, List.range_succ, divergence, project,
      jacobiPressure, jacobiSweep, neumannFill, subtractGradU,
      subtractGradV, enforceNoThroughU, enforceNoThroughV, clampNat,
      divExpandU, zeroV]
    norm_num
  constructor
  · rw [h1]
    norm_num
  · rw [h1, h2]
    exact lt_irrefl 16

/-- Claim C1 amended (spec-modelled): projection does reduce the
divergence strictly for some nonzero-divergence fields, exhibited here on
the single-bump field: one projection pass with one Jacobi iteration
takes the squared L2 divergence norm from 4 down to 99 / 32. -/
theorem projection_reduces_divergence_sample :
    divL2sq 4 bumpU zeroV ≠ 0 ∧
    divL2sq 4 (project 4 1 bumpU zeroV).1 (project 4 1 bumpU zeroV).2 <
      divL2sq 4 bumpU zeroV := by
  have h1 : divL2sq 4 bumpU zeroV = 4 := by
    simp [divL2sq, gridSumSq, List.range_succ, divergence, bumpU, zeroV]
    norm_num
  have h2 : divL2sq 4 (project 4 1 bumpU zeroV).1
      (project 4 1 bumpU zeroV).2 = 99 / 32 := by
    simp [divL2sq, gridSumSq, List.range_succ, divergence, project,
      jacobiPressure, jacobiSweep, neumannFill, subtractGradU,
      subtractGradV, enforceNoThroughU, enforceNoThroughV, clampNat,
      bumpU, zeroV]
    norm_num
  rw [h1, h2]
  norm_num

/-- Helper for claim C5: the per-cell weight of a splat of radius 0, or
of a splat whose open support disk misses the unit square, vanishes at
every cell. -/
theorem splatCellWeight_eq_zero {α : Type} [LinearOrderedField α] (N : ℕ)
    (x y r : α)
    (h : r = 0 ∨ ∀ px py : α, 0 ≤ px → px ≤ 1 → 0 ≤ py → py ≤ 1 →
      r * r ≤ (px - x) * (px - x) + (py - y) * (py - y)) (i j : ℕ) :
    splatCellWeight N x y r i j = 0 := by
  unfold splatCellWeight
  split
  case isTrue hin =>
    dsimp only
    have hN : 0 < N := lt_of_le_of_lt (Nat.zero_le i) hin.1
    have hNα : (0 : α) < (N : α) := by exact_mod_cast hN
    set cx := (((j : α) + 1 / 2) / (N : α)) with hcx
    set cy := (((i : α) + 1 / 2) / (N : α)) with hcy
    have hd2 : 0 ≤ (cx - x) * (cx - x) + (cy - y) * (cy - y) := by
      have h1 := mul_self_nonneg (cx - x)
      have h2 := mul_self_nonneg (cy - y)
      linarith
    rcases h with h0 | hout
    · subst h0
      simp only [splatWeight, mul_zero, zero_mul]
      rw [if_neg (not_lt.2 hd2)]
    · have hj : (j : α) + 1 ≤ (N : α) := by
        have hjN : j + 1 ≤ N := hin.2
        exact_mod_cast hjN
      have hi : (i : α) + 1 ≤ (N : α) := by
        have hiN : i + 1 ≤ N := hin.1
        exact_mod_cast hiN
      have hcx0 : 0 ≤ cx := by
        rw [hcx]
        positivity
      have hcx1 : cx ≤ 1 := by
        rw [hcx, div_le_one hNα]
        linarith
      have hcy0 : 0 ≤ cy := by
        rw [hcy]
        positivity
      have hcy1 : cy ≤ 1 := by
        rw [hcy, div_le_one hNα]
        linarith
      have hle := hout cx cy hcx0 hcx1 hcy0 hcy1
      simp only [splatWeight]
      rw [if_neg (not_lt.2 hle)]
  case isFalse => rfl

/-- Claim C5 (spec-modelled): a splat whose radius is 0, or whose support
(the open disk of the given radius around the center) lies entirely
outside the unit square, leaves the dye and both velocity fields
unchanged at every cell: add_splat is a no-op there, not an error. -/
theorem add_splat_noop {α : Type} [LinearOrderedField α] (N : ℕ)
    (u v dye : Grid α) (x y amount fx fy r : α)
    (h : r = 0 ∨ ∀ px py : α, 0 ≤ px → px ≤ 1 → 0 ≤ py → py ≤ 1 →
      r * r ≤ (px - x) * (px - x) + (py - y) * (py - y)) (i j : ℕ) :
    (add_splat N u v dye x y amount fx fy r).1 i j = u i j ∧
    (add_splat N u v dye x y amount fx fy r).2.1 i j = v i j ∧
    (add_splat N u v dye x y amount fx fy r).2.2 i j = dye i j := by
  have hw := splatCellWeight_eq_zero N x y r h i j
  unfold add_splat
  refine ⟨?_, ?_, ?_⟩ <;>
    · dsimp only
      rw [hw, zero_mul, add_zero]

/-- Witness for add_splat_noop: a splat of radius 1/2 centered at (3, 3),
entirely outside the unit square, leaves the sample dye grid unchanged at
cell (1, 2) of a 4 x 4 grid. -/
theorem add_splat_noop_witness :
    (∀ px py : ℚ, 0 ≤ px → px ≤ 1 → 0 ≤ py → py ≤ 1 →
      (1 / 2 : ℚ) * (1 / 2) ≤ (px - 3) * (px - 3) + (py - 3) * (py - 3)) ∧
    (add_splat 4 wGridU wGridV wGridD 3 3 5 7 9 (1 / 2)).2.2 1 2 =
      wGridD 1 2 :=
  ⟨fun px py hpx0 hpx1 hpy0 hpy1 => by nlinarith,
   (add_splat_noop 4 wGridU wGridV wGridD 3 3 5 7 9 (1 / 2)
     (Or.inr fun px py hpx0 hpx1 hpy0 hpy1 => by nlinarith) 1 2).2.2⟩

/-- Claim C9: if the document has no canvas element under the requested
id, getCanvasContext returns none, and each of the five visualization
methods issues no drawing operation at all; since all of them are total
functions, a missing canvas is a silent no-op and never an error. -/
theorem missing_canvas_silent (doc : String → Option Canvas) (T F : ℝ) :
    (∀ cid, doc cid = none → getCanvasContext doc cid = none) ∧
    (doc introId = none → createIntroVisualization doc = []) ∧
    (doc fermiSphereId = none → updateFermiSphereViz doc T = []) ∧
    (doc quasiparticleId = none → updateQuasiparticleViz doc F = []) ∧
    (doc interactionId = none → createInteractionVisualization doc = []) ∧
    (doc transportId = none → createTransportVisualization doc = []) := by
  refine ⟨fun cid h => ?_, fun h => ?_, fun h => ?_, fun h => ?_,
    fun h => ?_, fun h => ?_⟩
  · simp [getCanvasContext, h]
  · simp [createIntroVisualization, getCanvasContext, h]
  · simp [updateFermiSphereViz, getCanvasContext, h]
  · simp [updateQuasiparticleViz, getCanvasContext, h]
  · simp [createInteractionVisualization, getCanvasContext, h]
  · simp [createTransportVisualization, getCanvasContext, h]

/-- Witness for missing_canvas_silent on the empty document: the intro
visualization issues no drawing operation. -/
theorem missing_canvas_silent_witness :
    ((fun _ : String => (none : Option Canvas)) introId = none) ∧
    createIntroVisualization (fun _ => none) = [] :=
  ⟨rfl, (missing_canvas_silent (fun _ => none) 0 0).2.1 rfl⟩

end FermiFluids
